import Mathlib

/-!
Verification of the Dolibarr MCP integration server
(`src/dolibarr_mcp_server.py`) against its natural-language specification.

The Python source is shallowly embedded: JSON values become the inductive
`JVal` (Python dicts are insertion-ordered association lists), the HTTP
transport becomes an explicit `Remote` function from requests to responses,
exceptions become an explicit `PyErr` error type threaded through `Except`,
and the current instant (`datetime.datetime.now()`) is passed explicitly.
Each definition mirrors the source function named in its doc comment.
-/

/-- Mirrors a parsed JSON value as Python's `json` module produces it:
`int` for integers, `bool` for booleans (a distinct constructor, although
Python's `isinstance(x, int)` also accepts booleans - see
`normalizeCreation`), `str`, `list`, `dict` (insertion-ordered list of
key/value pairs, keys are strings) and `None`.  Floating-point numbers are
not modelled; no claim mentions them. -/
inductive JVal where
  | int (n : Int)
  | bool (b : Bool)
  | str (s : String)
  | arr (elems : List JVal)
  | obj (fields : List (String × JVal))
  | null

/-- Mirrors a Python dict with string keys holding JSON values (the shape of
`arguments` and of every payload in the source). -/
abbrev PyDict : Type := List (String × JVal)

/-- Mirrors Python's `k in d` membership test on a dict. -/
def pyContains (k : String) (d : PyDict) : Bool :=
  d.any (fun p => p.1 = k)

/-- Mirrors a Python dict lookup `d[k]` (`none` models a raised `KeyError`). -/
def pyLookup (k : String) (d : PyDict) : Option JVal :=
  (d.find? (fun p => p.1 = k)).map (fun p => p.2)

/-- Mirrors Python's `d.get(k, default)`. -/
def pyGet (k : String) (d : PyDict) (default : JVal) : JVal :=
  (pyLookup k d).getD default

/-- Mirrors a Python dict assignment `d[k] = v`: replaces the value in place
when the key is present (keeping insertion order), appends otherwise. -/
def pySet (k : String) (v : JVal) (d : PyDict) : PyDict :=
  if pyContains k d then
    d.map (fun p => if p.1 = k then (k, v) else p)
  else
    d ++ [(k, v)]

/-- Mirrors Python's `d.setdefault(k, v)`: inserts only when the key is
absent; a key present with a falsy value is left untouched. -/
def pySetdefault (k : String) (v : JVal) (d : PyDict) : PyDict :=
  if pyContains k d then d else d ++ [(k, v)]

/-- Mirrors Python's `d.pop(k)` effect on the dict: the key is removed. -/
def pyErase (k : String) (d : PyDict) : PyDict :=
  d.filter (fun p => ¬ p.1 = k)

mutual
/-- Mirrors Python's `repr` on JSON-shaped values, as `str` uses it inside
containers (string escaping inside quotes is not modelled; no claim needs
it). -/
def pyRepr : JVal → String
  | .int n => toString n
  | .bool b => if b then "True" else "False"
  | .str s => "'" ++ s ++ "'"
  | .null => "None"
  | .arr xs => "[" ++ pyReprElems xs ++ "]"
  | .obj fs => "\x7b" ++ pyReprFields fs ++ "\x7d"

/-- Comma-separated `repr`s of a Python list's elements. -/
def pyReprElems : List JVal → String
  | [] => ""
  | [x] => pyRepr x
  | x :: xs => pyRepr x ++ ", " ++ pyReprElems xs

/-- Comma-separated `'key': repr(value)` pairs of a Python dict. -/
def pyReprFields : List (String × JVal) → String
  | [] => ""
  | [(k, v)] => "'" ++ k ++ "': " ++ pyRepr v
  | (k, v) :: fs => "'" ++ k ++ "': " ++ pyRepr v ++ ", " ++ pyReprFields fs
end

/-- Mirrors Python's `str()` as f-strings apply it: a string passes through
unquoted, every other shape renders as its `repr`. -/
def pyStr : JVal → String
  | .str s => s
  | v => pyRepr v

/-- Mirrors Python's `bool()` truthiness on JSON-shaped values. -/
def pyTruthy : JVal → Bool
  | .int n => !(n = 0)
  | .bool b => b
  | .str s => !(s = "")
  | .arr xs => !xs.isEmpty
  | .obj fs => !fs.isEmpty
  | .null => false

/-- Mirrors Python's `str.upper()` on the ASCII strings the source compares
(`"ASC"`/`"DESC"`). -/
def pyUpper (s : String) : String :=
  String.mk (s.data.map Char.toUpper)

/-- Hex digit used by percent-encoding. -/
def hexChar (n : Nat) : Char :=
  ("0123456789ABCDEF".toList).getD n (Char.ofNat 48)

/-- UTF-8 encoding of one character, as the byte values
`urllib.parse.quote` percent-encodes. -/
def utf8Bytes (c : Char) : List Nat :=
  let n := c.toNat
  if n < 128 then [n]
  else if n < 2048 then [192 + n / 64, 128 + n % 64]
  else if n < 65536 then [224 + n / 4096, 128 + n / 64 % 64, 128 + n % 64]
  else [240 + n / 262144, 128 + n / 4096 % 64, 128 + n / 64 % 64, 128 + n % 64]

/-- Bytes `urllib.parse.quote` leaves unencoded with its default
`safe="/"`: ASCII letters, digits, `_ . - ~` and `/`. -/
def quoteKeepsByte (b : Nat) : Bool :=
  (65 ≤ b && b ≤ 90) ||
  (97 ≤ b && b ≤ 122) ||
  (48 ≤ b && b ≤ 57) ||
  ([45, 46, 95, 126, 47].contains b)

/-- Mirrors `urllib.parse.quote(s)` (UTF-8, default safe characters). -/
def pyQuote (s : String) : String :=
  String.join ((s.data.flatMap utf8Bytes).map (fun b =>
    if quoteKeepsByte b then String.singleton (Char.ofNat b)
    else "%" ++ String.singleton (hexChar (b / 16))
             ++ String.singleton (hexChar (b % 16))))

/-- Mirrors `DEFAULT_LIMIT` (`os.getenv("DEFAULT_LIMIT", "100")`): the
configured default result limit, modelled at its documented default. -/
def DEFAULT_LIMIT : Int := 100

/-- Mirrors `DEFAULT_SORT_ORDER` (default `"DESC"`). -/
def DEFAULT_SORT_ORDER : String := "DESC"

/-- Mirrors `DEFAULT_AGENDA_LIMIT` (default `"100"`). -/
def DEFAULT_AGENDA_LIMIT : Int := 100

/-- Mirrors the first append of `DolibarrAPI._build_params`:
`limit={limit}` when `limit > 0`, nothing otherwise. -/
def limitParam (limit : Int) : List (String × String) :=
  if 0 < limit then [("limit", toString limit)] else []

/-- Mirrors the sorting appends of `DolibarrAPI._build_params`: when the
upper-cased sort order is `ASC` or `DESC`, `sortorder=<it>` followed by
`sortfield=<sort_field>` when the field argument is truthy (neither `None`
nor empty), else the fallback `sortfield=t.datep`; otherwise nothing. -/
def sortParams (sort_order : String) (sort_field : Option String) :
    List (String × String) :=
  if pyUpper sort_order = "ASC" ∨ pyUpper sort_order = "DESC" then
    ("sortorder", pyUpper sort_order) ::
      (match sort_field with
        | some f => if f = "" then [("sortfield", "t.datep")]
                    else [("sortfield", f)]
        | none => [("sortfield", "t.datep")])
  else []

/-- Mirrors the last append of `DolibarrAPI._build_params`:
`sqlfilters=<urlencoded>` when the filter string is truthy. -/
def filterParam (search_filters : String) : List (String × String) :=
  if search_filters = "" then []
  else [("sqlfilters", pyQuote search_filters)]

/-- Mirrors `DolibarrAPI._build_params`, as the ordered list of query
parameters it appends; each appended source string `"key=value"` is kept as
the pair `(key, value)` and rendered by `buildParams`.  `limit` and
`sort_order` are `none` when the caller passed Python `None` (the source's
default), `sort_field` is `none` for Python `None`. -/
def buildParamsList (limit : Option Int) (sort_order : Option String)
    (search_filters : String) (sort_field : Option String) :
    List (String × String) :=
  limitParam (limit.getD DEFAULT_LIMIT) ++
    sortParams (sort_order.getD DEFAULT_SORT_ORDER) sort_field ++
    filterParam search_filters

/-- Mirrors `DolibarrAPI._build_params`'s returned string:
`"?" + "&".join(params)` when any parameter exists, else `""`. -/
def buildParams (limit : Option Int) (sort_order : Option String)
    (search_filters : String) (sort_field : Option String) : String :=
  let params := buildParamsList limit sort_order search_filters sort_field
  if params = [] then ""
  else "?" ++ String.intercalate "&" (params.map (fun p => p.1 ++ "=" ++ p.2))

/-- Number of parameters carrying a given key among built query parameters. -/
def countKey (k : String) (ps : List (String × String)) : Nat :=
  ps.countP (fun p => p.1 = k)

/-! ### Dates and times

Mirrors the slice of `datetime.datetime` that `get_agenda_events` and
`get_upcoming_events` use: a proleptic-Gregorian timestamp record,
`replace`, subtraction of one second, `timedelta` addition/subtraction and
`weekday()`. -/

/-- Mirrors a `datetime.datetime` value. -/
structure PyDateTime where
  year : Nat
  month : Nat
  day : Nat
  hour : Nat
  minute : Nat
  second : Nat
  microsecond : Nat

/-- Two-digit zero-padded field, as `strftime`'s `%m %d %H %M %S` render. -/
def pad2 (n : Nat) : String :=
  if n < 10 then "0" ++ toString n else toString n

/-- Mirrors `strftime("%Y-%m-%d %H:%M:%S")`; the microsecond field is
dropped, and `%Y` renders the year unpadded (glibc behaviour; every year in
play has four digits). -/
def strftimeYmdHMS (t : PyDateTime) : String :=
  toString t.year ++ "-" ++ pad2 t.month ++ "-" ++ pad2 t.day ++ " " ++
    pad2 t.hour ++ ":" ++ pad2 t.minute ++ ":" ++ pad2 t.second

/-- Gregorian leap-year rule, as `datetime` uses. -/
def isLeapYear (y : Nat) : Bool :=
  y % 4 == 0 && (!(y % 100 == 0) || y % 400 == 0)

/-- Days in a calendar month. -/
def daysInMonth (y m : Nat) : Nat :=
  if m = 2 then (if isLeapYear y then 29 else 28)
  else if [4, 6, 9, 11].contains m then 30
  else 31

/-- Mirrors `dt - datetime.timedelta(seconds=1)`: one second earlier, the
microsecond field unchanged, borrowing through the calendar as needed. -/
def minusOneSecond (t : PyDateTime) : PyDateTime :=
  if 0 < t.second then { t with second := t.second - 1 }
  else if 0 < t.minute then { t with minute := t.minute - 1, second := 59 }
  else if 0 < t.hour then
    { t with hour := t.hour - 1, minute := 59, second := 59 }
  else if 1 < t.day then
    { t with day := t.day - 1, hour := 23, minute := 59, second := 59 }
  else if 1 < t.month then
    { t with month := t.month - 1, day := daysInMonth t.year (t.month - 1),
             hour := 23, minute := 59, second := 59 }
  else
    { t with year := t.year - 1, month := 12, day := 31,
             hour := 23, minute := 59, second := 59 }

/-- The next calendar day. -/
def incDay (t : PyDateTime) : PyDateTime :=
  if t.day < daysInMonth t.year t.month then { t with day := t.day + 1 }
  else if t.month < 12 then { t with month := t.month + 1, day := 1 }
  else { t with year := t.year + 1, month := 1, day := 1 }

/-- Mirrors `dt + datetime.timedelta(days=n)` for `n ≥ 0`. -/
def addDays : Nat → PyDateTime → PyDateTime
  | 0, t => t
  | n + 1, t => addDays n (incDay t)

/-- The previous calendar day. -/
def decDay (t : PyDateTime) : PyDateTime :=
  if 1 < t.day then { t with day := t.day - 1 }
  else if 1 < t.month then
    { t with month := t.month - 1, day := daysInMonth t.year (t.month - 1) }
  else { t with year := t.year - 1, month := 12, day := 31 }

/-- Mirrors `dt - datetime.timedelta(days=n)` for `n ≥ 0`. -/
def subDays : Nat → PyDateTime → PyDateTime
  | 0, t => t
  | n + 1, t => subDays n (decDay t)

/-- Mirrors `dt + datetime.timedelta(days, hours, minutes, seconds)` for a
non-negative delta, carrying overflow of the time fields into days. -/
def addDelta (t : PyDateTime) (days hours minutes seconds : Nat) :
    PyDateTime :=
  let tot := t.second + seconds + 60 * (t.minute + minutes) +
    3600 * (t.hour + hours)
  let base := addDays (days + tot / 86400) t
  { base with hour := tot % 86400 / 3600, minute := tot % 3600 / 60,
              second := tot % 60 }

/-- Days before January 1 of year `y` in the proleptic Gregorian calendar
(`datetime`'s ordinal arithmetic). -/
def daysBeforeYear (y : Nat) : Nat :=
  let n := y - 1
  365 * n + n / 4 - n / 100 + n / 400

/-- Days of year `y` before the first of month `m`. -/
def daysBeforeMonth (y m : Nat) : Nat :=
  (((List.range (m - 1)).map (fun i => daysInMonth y (i + 1)))).sum

/-- Mirrors `datetime.date.toordinal`. -/
def toOrdinal (t : PyDateTime) : Nat :=
  daysBeforeYear t.year + daysBeforeMonth t.year t.month + t.day

/-- Mirrors `datetime.weekday()`: Monday is 0. -/
def pyWeekday (t : PyDateTime) : Nat :=
  (toOrdinal t + 6) % 7

/-- The two-sided range filter string both agenda operations interpolate:
`t.datep >= '<start>' AND t.datep <= '<end>'`. -/
def rangeFilter (a b : PyDateTime) : String :=
  "t.datep >= '" ++ strftimeYmdHMS a ++ "' AND t.datep <= '" ++
    strftimeYmdHMS b ++ "'"

/-- Mirrors `month_start` of `get_agenda_events`' `this_month` branch:
`now.replace(day=1, hour=0, minute=0, second=0)` (microsecond kept, as
`replace` keeps unnamed fields). -/
def monthStartOf (now : PyDateTime) : PyDateTime :=
  { now with day := 1, hour := 0, minute := 0, second := 0 }

/-- Mirrors `month_end` of `get_agenda_events`' `this_month` branch: the
first instant of the next month (December rolls into January of the next
year) minus one second. -/
def monthEndOf (now : PyDateTime) : PyDateTime :=
  if now.month = 12 then
    minusOneSecond { now with year := now.year + 1, month := 1, day := 1,
                              hour := 0, minute := 0, second := 0 }
  else
    minusOneSecond { now with month := now.month + 1, day := 1,
                              hour := 0, minute := 0, second := 0 }

/-- Mirrors the `search_filters` computation of
`DolibarrAPI.get_agenda_events`: the `if filter_type:` truthiness guard,
then one branch per recognized filter type; an unrecognized or non-string
value leaves the filter empty. -/
def agendaSearchFilters (filter_type : Option JVal) (now : PyDateTime) :
    String :=
  match filter_type with
  | none => ""
  | some ft =>
    if !(pyTruthy ft) then ""
    else
      match ft with
      | .str s =>
        if s = "future" then "t.datep >= '" ++ strftimeYmdHMS now ++ "'"
        else if s = "past" then "t.datep < '" ++ strftimeYmdHMS now ++ "'"
        else if s = "today" then
          rangeFilter { now with hour := 0, minute := 0, second := 0 }
            { now with hour := 23, minute := 59, second := 59 }
        else if s = "this_week" then
          let week_start :=
            { (subDays (pyWeekday now) now) with
                hour := 0, minute := 0, second := 0 }
          rangeFilter week_start (addDelta week_start 6 23 59 59)
        else if s = "this_month" then
          rangeFilter (monthStartOf now) (monthEndOf now)
        else ""
      | _ => ""

/-! ### Requests, responses and errors

The HTTP transport is external (`httpx`); it is modelled as a function from
requests to responses, and the exceptions the source handles become an
explicit error type. -/

/-- Mirrors Python's `s.rstrip("/")` (`__init__` applies it to the base
URL). -/
def rstripSlash (s : String) : String :=
  String.mk (((s.data.reverse).dropWhile (fun c => c = Char.ofNat 47)).reverse)

/-- Mirrors Python's `s.lstrip("/")` (`_make_request` applies it to the
endpoint). -/
def lstripSlash (s : String) : String :=
  String.mk (s.data.dropWhile (fun c => c = Char.ofNat 47))

/-- One outbound HTTP request, as `_make_request` issues it via `httpx`
(`GET`/`DELETE` send no body; the `DOLAPIKEY` header is constant and not
modelled). -/
structure Request where
  method : String
  url : String
  body : Option JVal

/-- The remote system's answer: HTTP status and parsed JSON body. -/
structure HttpResponse where
  status : Nat
  body : JVal

/-- The environment of a `DolibarrAPI` instance: the HTTP transport and the
configured base URL. -/
structure Ctx where
  remote : Request → HttpResponse
  baseUrl : String

/-- The exceptions the source raises or propagates. -/
inductive PyErr where
  | httpStatus (code : Nat) (url : String)
  | valueError (msg : String)
  | keyError (key : String)
  | typeError (msg : String)

/-- Reason phrases for the HTTP status codes in play. -/
def reasonPhrase (code : Nat) : String :=
  if code = 400 then "Bad Request"
  else if code = 401 then "Unauthorized"
  else if code = 403 then "Forbidden"
  else if code = 404 then "Not Found"
  else if code = 500 then "Internal Server Error"
  else ""

/-- Mirrors `str(e)` for the `httpx.HTTPStatusError` that
`response.raise_for_status()` raises: the message is built from the status
code, reason phrase and URL only — the response body is never part of it
(recent httpx versions append a documentation link, which likewise never
contains the body). -/
def httpErrStr (code : Nat) (url : String) : String :=
  (if code < 500 then "Client error" else "Server error") ++ " '" ++
    toString code ++ " " ++ reasonPhrase code ++ "' for url '" ++ url ++ "'"

/-- Mirrors Python's `str(e)` on each modelled exception
(`str(KeyError(k))` renders the key in quotes). -/
def pyErrStr : PyErr → String
  | .httpStatus code url => httpErrStr code url
  | .valueError msg => msg
  | .keyError k => "'" ++ k ++ "'"
  | .typeError msg => msg

/-- What an API call produces: the requests it issued (exactly one on the
happy path) and its result or exception. -/
abbrev ApiOut : Type := List Request × Except PyErr JVal

/-- Mirrors `DolibarrAPI._make_request`.  The URL is
`base_url.rstrip('/') + "/" + endpoint.lstrip('/')` (the constructor's
`rstrip` composed with the request-time f-string).  On a status `≥ 400` the
source extracts `error.message` from the body *only to log it*, then calls
`response.raise_for_status()`, whose `HTTPStatusError` is re-raised
unchanged; the value raised therefore carries the status and URL, not the
body's message.  An unsupported method raises `ValueError` before any
request is made. -/
def makeRequest (ctx : Ctx) (method endpoint : String) (data : Option JVal) :
    ApiOut :=
  let url := rstripSlash ctx.baseUrl ++ "/" ++ lstripSlash endpoint
  let M := pyUpper method
  if M = "GET" ∨ M = "POST" ∨ M = "PUT" ∨ M = "DELETE" then
    let req : Request :=
      ⟨M, url, if M = "POST" ∨ M = "PUT" then data else none⟩
    let resp := ctx.remote req
    ([req],
      if 400 ≤ resp.status then .error (.httpStatus resp.status url)
      else .ok resp.body)
  else
    ([], .error (.valueError ("Méthode HTTP non supportée: " ++ method)))

/-- Applies a function to the successful result of an API call. -/
def mapOk (o : ApiOut) (f : JVal → JVal) : ApiOut :=
  (o.1, o.2.map f)

/-- Mirrors the response normalization shared by every create operation
(`create_contact`, `create_company`, `create_proposal`,
`create_agenda_event`, `create_ticket`): `isinstance(result, int)` wraps a
bare identifier into an id/status dict — and Python's `isinstance` also
accepts `bool` there, so a boolean is wrapped raw, not stringified — a dict
passes through unchanged, and any other shape is wrapped with
`str(result)`. -/
def normalizeCreation : JVal → JVal
  | .int n => .obj [("id", .int n), ("status", .str "created")]
  | .bool b => .obj [("id", .bool b), ("status", .str "created")]
  | .obj fs => .obj fs
  | v => .obj [("id", .str (pyStr v)), ("status", .str "created")]

/-- Mirrors the first statement of `DolibarrAPI.create_agenda_event`'s
defaulting: `event_data['userownerid'] = 5` when the key is absent. -/
def injectOwner (event_data : PyDict) : PyDict :=
  if pyContains "userownerid" event_data then event_data
  else pySet "userownerid" (.int 5) event_data

/-- The synthesized single-entry `userassigned` map keyed by the owner's
string form. -/
def assignmentMap (user_id : String) : JVal :=
  .obj [(user_id,
    .obj [("id", .str user_id), ("mandatory", .str "0"),
          ("answer_status", .str "0"), ("transparency", .str "0")])]

/-- Mirrors the second statement of the defaulting: when `userassigned` is
absent, synthesize the map keyed by `str(event_data['userownerid'])`
(always present at that point — the `.getD .null` fallback is
unreachable). -/
def injectAssigned (event_data : PyDict) : PyDict :=
  if pyContains "userassigned" event_data then event_data
  else
    pySet "userassigned"
      (assignmentMap (pyStr ((pyLookup "userownerid" event_data).getD .null)))
      event_data

/-- Mirrors the in-place defaulting at the top of
`DolibarrAPI.create_agenda_event`: the two injections above followed by the
four `setdefault` calls.  Every default applies on a *missing key* only. -/
def applyAgendaDefaults (event_data : PyDict) : PyDict :=
  pySetdefault "transparency" (.int 0)
    (pySetdefault "fulldayevent" (.int 0)
      (pySetdefault "priority" (.int 0)
        (pySetdefault "percentage" (.int (-1))
          (injectAssigned (injectOwner event_data)))))

namespace DolibarrAPI

/-- Mirrors `DolibarrAPI.search_contacts`. -/
def search_contacts (ctx : Ctx) (search_term : JVal) (limit : Option Int)
    (sort_order : Option String) : ApiOut :=
  let search_filters :=
    if pyTruthy search_term then
      "(t.lastname:like:'%" ++ pyStr search_term ++
        "%') OR (t.firstname:like:'%" ++ pyStr search_term ++
        "%') OR (t.email:like:'%" ++ pyStr search_term ++ "%')"
    else ""
  makeRequest ctx "GET"
    ("contacts" ++ buildParams limit sort_order search_filters
      (some "t.lastname")) none

/-- Mirrors `DolibarrAPI.create_contact`. -/
def create_contact (ctx : Ctx) (contact_data : PyDict) : ApiOut :=
  mapOk (makeRequest ctx "POST" "contacts" (some (.obj contact_data)))
    normalizeCreation

/-- Mirrors `DolibarrAPI.get_companies`. -/
def get_companies (ctx : Ctx) (search_term : JVal) (limit : Option Int)
    (sort_order : Option String) : ApiOut :=
  let search_filters :=
    if pyTruthy search_term then
      "(t.name:like:'%" ++ pyStr search_term ++ "%')"
    else ""
  makeRequest ctx "GET"
    ("thirdparties" ++ buildParams limit sort_order search_filters
      (some "t.name")) none

/-- Mirrors `DolibarrAPI.create_company`. -/
def create_company (ctx : Ctx) (company_data : PyDict) : ApiOut :=
  mapOk (makeRequest ctx "POST" "thirdparties" (some (.obj company_data)))
    normalizeCreation

/-- Mirrors `DolibarrAPI.get_proposals` (defaults resolved before the
builder is called, as in the source). -/
def get_proposals (ctx : Ctx) (limit : Option Int)
    (sort_order : Option String) : ApiOut :=
  let limit := limit.getD DEFAULT_LIMIT
  let sort_order := sort_order.getD DEFAULT_SORT_ORDER
  makeRequest ctx "GET"
    ("proposals" ++ buildParams (some limit) (some sort_order) ""
      (some "t.datec")) none

/-- Mirrors `DolibarrAPI.create_proposal`. -/
def create_proposal (ctx : Ctx) (proposal_data : PyDict) : ApiOut :=
  mapOk (makeRequest ctx "POST" "proposals" (some (.obj proposal_data)))
    normalizeCreation

/-- Mirrors `DolibarrAPI.get_agenda_events`; `now` is the current instant
the source reads from `datetime.datetime.now()`. -/
def get_agenda_events (ctx : Ctx) (now : PyDateTime) (limit : Option Int)
    (sort_order : Option String) (filter_type : Option JVal) : ApiOut :=
  let limit := limit.getD DEFAULT_AGENDA_LIMIT
  let sort_order := sort_order.getD DEFAULT_SORT_ORDER
  let search_filters := agendaSearchFilters filter_type now
  makeRequest ctx "GET"
    ("agendaevents" ++ buildParams (some limit) (some sort_order)
      search_filters (some "t.datep")) none

/-- Mirrors `DolibarrAPI.get_upcoming_events` (negative `days_ahead` walks
backwards, as `timedelta` would; a `None` limit falls through to the
builder's own default, while `timedelta(days=None)` would raise). -/
def get_upcoming_events (ctx : Ctx) (now : PyDateTime) (limit : Option Int)
    (days_ahead : Int) : ApiOut :=
  let future :=
    if 0 ≤ days_ahead then addDays days_ahead.toNat now
    else subDays (-days_ahead).toNat now
  makeRequest ctx "GET"
    ("agendaevents" ++ buildParams limit (some "ASC")
      (rangeFilter now future) (some "t.datep")) none

/-- Mirrors `DolibarrAPI.create_agenda_event`'s request and result (the
in-place mutation of the caller's dict is modelled separately by
`createAgendaEventSt`). -/
def create_agenda_event (ctx : Ctx) (event_data : PyDict) : ApiOut :=
  let event_data := applyAgendaDefaults event_data
  mapOk (makeRequest ctx "POST" "agendaevents" (some (.obj event_data)))
    normalizeCreation

/-- Mirrors `DolibarrAPI.get_agenda_event` (`event_id` interpolated into
the path by an f-string, hence `pyStr`). -/
def get_agenda_event (ctx : Ctx) (event_id : JVal) : ApiOut :=
  makeRequest ctx "GET" ("agendaevents/" ++ pyStr event_id) none

/-- Mirrors `DolibarrAPI.update_agenda_event`. -/
def update_agenda_event (ctx : Ctx) (event_id : JVal)
    (event_data : PyDict) : ApiOut :=
  makeRequest ctx "PUT" ("agendaevents/" ++ pyStr event_id)
    (some (.obj event_data))

/-- Mirrors `DolibarrAPI.delete_agenda_event`. -/
def delete_agenda_event (ctx : Ctx) (event_id : JVal) : ApiOut :=
  makeRequest ctx "DELETE" ("agendaevents/" ++ pyStr event_id) none

/-- Mirrors `DolibarrAPI.get_tickets`. -/
def get_tickets (ctx : Ctx) (limit : Option Int)
    (sort_order : Option String) : ApiOut :=
  let limit := limit.getD DEFAULT_LIMIT
  let sort_order := sort_order.getD DEFAULT_SORT_ORDER
  makeRequest ctx "GET"
    ("tickets" ++ buildParams (some limit) (some sort_order) ""
      (some "t.datec")) none

/-- Mirrors `DolibarrAPI.create_ticket`. -/
def create_ticket (ctx : Ctx) (ticket_data : PyDict) : ApiOut :=
  mapOk (makeRequest ctx "POST" "tickets" (some (.obj ticket_data)))
    normalizeCreation

/-- Mirrors `DolibarrAPI.get_ticket`. -/
def get_ticket (ctx : Ctx) (ticket_id : JVal) : ApiOut :=
  makeRequest ctx "GET" ("tickets/" ++ pyStr ticket_id) none

/-- Mirrors `DolibarrAPI.get_ticket_by_ref`. -/
def get_ticket_by_ref (ctx : Ctx) (ref : JVal) : ApiOut :=
  makeRequest ctx "GET" ("tickets/ref/" ++ pyStr ref) none

/-- Mirrors `DolibarrAPI.get_ticket_by_track_id`. -/
def get_ticket_by_track_id (ctx : Ctx) (track_id : JVal) : ApiOut :=
  makeRequest ctx "GET" ("tickets/track_id/" ++ pyStr track_id) none

/-- Mirrors `DolibarrAPI.update_ticket`. -/
def update_ticket (ctx : Ctx) (ticket_id : JVal) (ticket_data : PyDict) :
    ApiOut :=
  makeRequest ctx "PUT" ("tickets/" ++ pyStr ticket_id)
    (some (.obj ticket_data))

/-- Mirrors `DolibarrAPI.add_ticket_message`. -/
def add_ticket_message (ctx : Ctx) (message_data : PyDict) : ApiOut :=
  makeRequest ctx "POST" "tickets/newmessage" (some (.obj message_data))

/-- Mirrors `DolibarrAPI.delete_ticket`. -/
def delete_ticket (ctx : Ctx) (ticket_id : JVal) : ApiOut :=
  makeRequest ctx "DELETE" ("tickets/" ++ pyStr ticket_id) none

end DolibarrAPI

/-! ### The tool dispatcher (`handle_call_tool`) -/

/-- Mirrors `mcp.types.TextContent` (its `type` field is the constant
`"text"` and is not modelled). -/
structure TextContent where
  text : String

/-- Indentation used by `json.dumps(..., indent=2)`. -/
def indentSp (lvl : Nat) : String :=
  String.mk (List.replicate (2 * lvl) (Char.ofNat 32))

mutual
/-- Mirrors `json.dumps(v, indent=2, ensure_ascii=False)` (string escaping
is not modelled; no claim inspects these success texts). -/
def pyJsonDumps : Nat → JVal → String
  | _, .int n => toString n
  | _, .bool b => if b then "true" else "false"
  | _, .str s => "\"" ++ s ++ "\""
  | _, .null => "null"
  | lvl, .arr xs =>
    if xs.isEmpty then "[]"
    else "[\n" ++ dumpsElems (lvl + 1) xs ++ "\n" ++ indentSp lvl ++ "]"
  | lvl, .obj fs =>
    if fs.isEmpty then "\x7b\x7d"
    else "\x7b\n" ++ dumpsFields (lvl + 1) fs ++ "\n" ++ indentSp lvl ++
      "\x7d"

/-- Serialized elements of a JSON array, one per line. -/
def dumpsElems : Nat → List JVal → String
  | _, [] => ""
  | lvl, [x] => indentSp lvl ++ pyJsonDumps lvl x
  | lvl, x :: xs =>
    indentSp lvl ++ pyJsonDumps lvl x ++ ",\n" ++ dumpsElems lvl xs

/-- Serialized fields of a JSON object, one per line. -/
def dumpsFields : Nat → List (String × JVal) → String
  | _, [] => ""
  | lvl, [(k, v)] =>
    indentSp lvl ++ "\"" ++ k ++ "\": " ++ pyJsonDumps lvl v
  | lvl, (k, v) :: fs =>
    indentSp lvl ++ "\"" ++ k ++ "\": " ++ pyJsonDumps lvl v ++ ",\n" ++
      dumpsFields lvl fs
end

/-- Mirrors `arguments.get(k, default)` where the value then flows into an
integer position: a missing key yields the branch's default, an explicit
JSON `null` yields Python `None` (which the API methods and the builder
replace with their own default), and a value of any other runtime type is
modelled as the `TypeError` the later comparison/arithmetic would raise. -/
def getIntArg (args : PyDict) (k : String) (default : Int) :
    Except PyErr (Option Int) :=
  match pyLookup k args with
  | none => .ok (some default)
  | some .null => .ok none
  | some (.int n) => .ok (some n)
  | some _ => .error (.typeError ("argument " ++ k ++ " is not an integer"))

/-- Mirrors `arguments.get(k, default)` where the value then flows into a
string position (`None` is replaced downstream; `.upper()` on any other
non-string raises). -/
def getStrArg (args : PyDict) (k : String) (default : String) :
    Except PyErr (Option String) :=
  match pyLookup k args with
  | none => .ok (some default)
  | some .null => .ok none
  | some (.str s) => .ok (some s)
  | some _ => .error (.typeError ("argument " ++ k ++ " is not a string"))

/-- What one tool invocation produces before the outer `except` handler:
the issued requests, and the text contents or the exception. -/
abbrev DispatchOut : Type := List Request × Except PyErr (List TextContent)

/-- A branch that serializes a successful result with `json.dumps`. -/
def outJson (o : ApiOut) : DispatchOut :=
  (o.1, o.2.map (fun v => [⟨pyJsonDumps 0 v⟩]))

/-- A branch that renders a successful result through a message template. -/
def outMsg (o : ApiOut) (f : JVal → String) : DispatchOut :=
  (o.1, o.2.map (fun v => [⟨f v⟩]))

/-- Mirrors `result.get('id', 'N/A') if isinstance(result, dict) else
result`. -/
def createdId (result : JVal) : JVal :=
  match result with
  | .obj fs => pyGet "id" fs (.str "N/A")
  | v => v

/-- Mirrors `result.get(k, 'N/A') if isinstance(result, dict) else 'N/A'`
(the `ref`/`track_id` fields of `create_ticket`'s message). -/
def createdField (k : String) (result : JVal) : JVal :=
  match result with
  | .obj fs => pyGet k fs (.str "N/A")
  | _ => .str "N/A"

/-- The declared tool catalog of `handle_list_tools`. -/
def toolNames : List String :=
  ["search_contacts", "create_contact", "get_companies", "create_company",
   "get_proposals", "create_proposal", "get_agenda_events",
   "get_upcoming_events", "create_agenda_event", "get_agenda_event",
   "update_agenda_event", "delete_agenda_event", "get_tickets",
   "create_ticket", "get_ticket", "get_ticket_by_ref",
   "get_ticket_by_track_id", "update_ticket", "add_ticket_message",
   "delete_ticket"]

/-- Mirrors the `try` body of `handle_call_tool`: the `if/elif` chain over
tool names; the final `else` raises `ValueError("Outil inconnu: ...")`.
`arguments.pop("event_id")` / `arguments.pop("ticket_id")` become a lookup
(a missing key raises `KeyError`) plus `pyErase` on the forwarded dict. -/
def dispatch (ctx : Ctx) (now : PyDateTime) (name : String) (args : PyDict) :
    DispatchOut :=
  if name = "search_contacts" then
    match getIntArg args "limit" DEFAULT_LIMIT,
        getStrArg args "sort_order" DEFAULT_SORT_ORDER with
    | .ok limit, .ok sort_order =>
      outJson (DolibarrAPI.search_contacts ctx
        (pyGet "search_term" args (.str "")) limit sort_order)
    | .error e, _ => ([], .error e)
    | _, .error e => ([], .error e)
  else if name = "create_contact" then
    outMsg (DolibarrAPI.create_contact ctx args)
      (fun r => "Contact créé avec succès. ID: " ++ pyStr (createdId r))
  else if name = "get_companies" then
    match getIntArg args "limit" DEFAULT_LIMIT,
        getStrArg args "sort_order" DEFAULT_SORT_ORDER with
    | .ok limit, .ok sort_order =>
      outJson (DolibarrAPI.get_companies ctx
        (pyGet "search_term" args (.str "")) limit sort_order)
    | .error e, _ => ([], .error e)
    | _, .error e => ([], .error e)
  else if name = "create_company" then
    outMsg (DolibarrAPI.create_company ctx args)
      (fun r => "Entreprise créée avec succès. ID: " ++ pyStr (createdId r))
  else if name = "get_proposals" then
    match getIntArg args "limit" DEFAULT_LIMIT,
        getStrArg args "sort_order" DEFAULT_SORT_ORDER with
    | .ok limit, .ok sort_order =>
      outJson (DolibarrAPI.get_proposals ctx limit sort_order)
    | .error e, _ => ([], .error e)
    | _, .error e => ([], .error e)
  else if name = "create_proposal" then
    outMsg (DolibarrAPI.create_proposal ctx args)
      (fun r => "Proposition créée avec succès. ID: " ++ pyStr (createdId r))
  else if name = "get_agenda_events" then
    match getIntArg args "limit" DEFAULT_AGENDA_LIMIT,
        getStrArg args "sort_order" DEFAULT_SORT_ORDER with
    | .ok limit, .ok sort_order =>
      outJson (DolibarrAPI.get_agenda_events ctx now limit sort_order
        (pyLookup "filter_type" args))
    | .error e, _ => ([], .error e)
    | _, .error e => ([], .error e)
  else if name = "get_upcoming_events" then
    match getIntArg args "limit" 50, getIntArg args "days_ahead" 30 with
    | .ok limit, .ok (some days_ahead) =>
      outJson (DolibarrAPI.get_upcoming_events ctx now limit days_ahead)
    | .ok _, .ok none =>
      ([], .error (.typeError "unsupported type for timedelta days component"))
    | .error e, _ => ([], .error e)
    | _, .error e => ([], .error e)
  else if name = "create_agenda_event" then
    outMsg (DolibarrAPI.create_agenda_event ctx args)
      (fun r =>
        "Événement d'agenda créé avec succès. ID: " ++ pyStr (createdId r))
  else if name = "get_agenda_event" then
    outJson (DolibarrAPI.get_agenda_event ctx (pyGet "event_id" args .null))
  else if name = "update_agenda_event" then
    match pyLookup "event_id" args with
    | none => ([], .error (.keyError "event_id"))
    | some event_id =>
      outMsg (DolibarrAPI.update_agenda_event ctx event_id
          (pyErase "event_id" args))
        (fun _ =>
          "Événement d'agenda mis à jour avec succès. ID: " ++
            pyStr event_id)
  else if name = "delete_agenda_event" then
    let event_id := pyGet "event_id" args .null
    outMsg (DolibarrAPI.delete_agenda_event ctx event_id)
      (fun _ =>
        "Événement d'agenda supprimé avec succès. ID: " ++ pyStr event_id)
  else if name = "get_tickets" then
    match getIntArg args "limit" DEFAULT_LIMIT,
        getStrArg args "sort_order" DEFAULT_SORT_ORDER with
    | .ok limit, .ok sort_order =>
      outJson (DolibarrAPI.get_tickets ctx limit sort_order)
    | .error e, _ => ([], .error e)
    | _, .error e => ([], .error e)
  else if name = "create_ticket" then
    outMsg (DolibarrAPI.create_ticket ctx args)
      (fun r =>
        "Ticket créé avec succès. ID: " ++ pyStr (createdId r) ++
          ", Référence: " ++ pyStr (createdField "ref" r) ++
          ", Track ID: " ++ pyStr (createdField "track_id" r))
  else if name = "get_ticket" then
    outJson (DolibarrAPI.get_ticket ctx (pyGet "ticket_id" args .null))
  else if name = "get_ticket_by_ref" then
    outJson (DolibarrAPI.get_ticket_by_ref ctx (pyGet "ref" args .null))
  else if name = "get_ticket_by_track_id" then
    outJson (DolibarrAPI.get_ticket_by_track_id ctx
      (pyGet "track_id" args .null))
  else if name = "update_ticket" then
    match pyLookup "ticket_id" args with
    | none => ([], .error (.keyError "ticket_id"))
    | some ticket_id =>
      outMsg (DolibarrAPI.update_ticket ctx ticket_id
          (pyErase "ticket_id" args))
        (fun _ => "Ticket mis à jour avec succès. ID: " ++ pyStr ticket_id)
  else if name = "add_ticket_message" then
    outMsg (DolibarrAPI.add_ticket_message ctx args)
      (fun _ => "Message ajouté au ticket avec succès.")
  else if name = "delete_ticket" then
    let ticket_id := pyGet "ticket_id" args .null
    outMsg (DolibarrAPI.delete_ticket ctx ticket_id)
      (fun _ => "Ticket supprimé avec succès. ID: " ++ pyStr ticket_id)
  else ([], .error (.valueError ("Outil inconnu: " ++ name)))

/-- Mirrors `handle_call_tool`: the `try` body (`dispatch`) wrapped in the
`except Exception` handler that converts any raised exception into the
single text `"Erreur: " + str(e)`. -/
def handle_call_tool (ctx : Ctx) (now : PyDateTime) (name : String)
    (args : PyDict) : List TextContent :=
  match (dispatch ctx now name args).2 with
  | .ok contents => contents
  | .error e => [⟨"Erreur: " ++ pyErrStr e⟩]

/-- The requests a tool invocation sends to the remote system. -/
def dispatchRequests (ctx : Ctx) (now : PyDateTime) (name : String)
    (args : PyDict) : List Request :=
  (dispatch ctx now name args).1

/-! ### Heap model for the in-place mutation of `create_agenda_event` -/

/-- A heap of Python dict objects: addresses to dict values.  Python
variables holding the "same dict" hold the same address. -/
abbrev Store : Type := Nat → Option PyDict

/-- Heap update at one address. -/
def storeSet (σ : Store) (a : Nat) (d : PyDict) : Store :=
  fun b => if b = a then some d else σ b

/-- Mirrors `DolibarrAPI.create_agenda_event` with its heap effect made
explicit: `event_data` is passed by reference (address `a`), and the
defaulting assignments and `setdefault` calls write through that same
address — the function never copies the dict.  A dangling address cannot
arise in Python; that branch is unreachable. -/
def createAgendaEventSt (ctx : Ctx) (a : Nat) (σ : Store) :
    Store × ApiOut :=
  match σ a with
  | none => (σ, ([], .error (.keyError "invalid reference")))
  | some d =>
    (storeSet σ a (applyAgendaDefaults d),
      DolibarrAPI.create_agenda_event ctx d)

/-- The four trailing `setdefault` calls of the agenda defaulting. -/
def agendaSetdefaults (e : PyDict) : PyDict :=
  pySetdefault "transparency" (.int 0)
    (pySetdefault "fulldayevent" (.int 0)
      (pySetdefault "priority" (.int 0)
        (pySetdefault "percentage" (.int (-1)) e)))

/-- Modelled from the spec's normalization invariant, as the comparison
target for the implementation's `normalizeCreation`: "if the remote call
returns a bare integer n, the operation returns `{id: n, status:
\"created\"}` (numeric id, the implementation's choice); if it returns an
object, that object is returned unmodified; any other returned shape is
coerced to `{id: stringified-value, status: \"created\"}`". -/
def claimNormalizeCreation : JVal → JVal
  | .int n => .obj [("id", .int n), ("status", .str "created")]
  | .obj fs => .obj fs
  | v => .obj [("id", .str (pyStr v)), ("status", .str "created")]

/-- Mirrors Python's substring test `needle in hay`. -/
def strContains (hay needle : String) : Bool :=
  (List.range (hay.data.length + 1)).any
    (fun i => needle.data.isPrefixOf (hay.data.drop i))

/-! ### Dictionary lemmas -/

theorem pyContains_eq_isSome (k : String) (d : PyDict) :
    pyContains k d = (pyLookup k d).isSome := by
  induction d with
  | nil => rfl
  | cons p d ih =>
    unfold pyContains pyLookup at ih ⊢
    by_cases h : p.1 = k
    · simp [h]
    · simp [h, ih]

theorem pyLookup_append_self (k : String) (v : JVal) (d : PyDict)
    (h : pyLookup k d = none) : pyLookup k (d ++ [(k, v)]) = some v := by
  unfold pyLookup at h ⊢
  rw [Option.map_eq_none'] at h
  simp [List.find?_append, h, List.find?]

theorem pyLookup_append_ne (k k' : String) (v : JVal) (d : PyDict)
    (h : k' ≠ k) : pyLookup k' (d ++ [(k, v)]) = pyLookup k' d := by
  unfold pyLookup
  have hkk : ¬ k = k' := fun hh => h hh.symm
  have hnone : List.find? (fun p => decide (p.1 = k')) [(k, v)] = none := by
    simp [List.find?, hkk]
  simp [List.find?_append, hnone]

theorem pySet_eq_append (k : String) (v : JVal) (d : PyDict)
    (h : pyContains k d = false) : pySet k v d = d ++ [(k, v)] := by
  simp [pySet, h]

theorem pySetdefault_of_contains (k : String) (v : JVal) (d : PyDict)
    (h : pyContains k d = true) : pySetdefault k v d = d := by
  simp [pySetdefault, h]

theorem pySetdefault_eq_append (k : String) (v : JVal) (d : PyDict)
    (h : pyContains k d = false) : pySetdefault k v d = d ++ [(k, v)] := by
  simp [pySetdefault, h]

theorem pyLookup_setdefault_self (k : String) (v : JVal) (d : PyDict)
    (h : pyLookup k d = none) :
    pyLookup k (pySetdefault k v d) = some v := by
  rw [pySetdefault_eq_append k v d (by simp [pyContains_eq_isSome, h])]
  exact pyLookup_append_self k v d h

theorem pyLookup_setdefault_other (k k' : String) (v : JVal) (d : PyDict)
    (h : k' ≠ k) : pyLookup k' (pySetdefault k v d) = pyLookup k' d := by
  unfold pySetdefault
  split
  · rfl
  · exact pyLookup_append_ne k k' v d h

theorem pyLookup_setdefault_of_isSome (k k' : String) (v : JVal)
    (d : PyDict) (h : (pyLookup k' d).isSome) :
    pyLookup k' (pySetdefault k v d) = pyLookup k' d := by
  by_cases hk : k' = k
  · rw [hk] at h ⊢
    rw [pySetdefault_of_contains k v d (by rw [pyContains_eq_isSome, h])]
  · exact pyLookup_setdefault_other k k' v d hk

theorem pyLookup_erase_self (k : String) (d : PyDict) :
    pyLookup k (pyErase k d) = none := by
  unfold pyErase pyLookup
  rw [Option.map_eq_none', List.find?_eq_none]
  intro p hp
  rw [List.mem_filter] at hp
  have : ¬ p.1 = k := by simpa using hp.2
  simp [this]

theorem pyLookup_erase_ne (k k' : String) (d : PyDict) (h : k' ≠ k) :
    pyLookup k' (pyErase k d) = pyLookup k' d := by
  unfold pyErase pyLookup
  rw [List.find?_filter]
  congr 2
  funext a
  by_cases ha : a.1 = k'
  · simp [ha]
    exact h
  · simp [ha]

/-! ### Query-builder lemmas -/

theorem countKey_append (k : String) (a b : List (String × String)) :
    countKey k (a ++ b) = countKey k a + countKey k b := by
  unfold countKey
  exact List.countP_append _ _ _

theorem countKey_limitParam_ne (k : String) (l : Int) (h : k ≠ "limit") :
    countKey k (limitParam l) = 0 := by
  unfold limitParam countKey
  split <;> simp [List.countP_cons, Ne.symm h]

theorem countKey_filterParam_ne (k : String) (f : String)
    (h : k ≠ "sqlfilters") : countKey k (filterParam f) = 0 := by
  unfold filterParam countKey
  split <;> simp [List.countP_cons, Ne.symm h]

theorem countKey_sortParams_ne (k : String) (so : String)
    (sf : Option String) (h1 : k ≠ "sortorder") (h2 : k ≠ "sortfield") :
    countKey k (sortParams so sf) = 0 := by
  unfold sortParams countKey
  split
  · rcases sf with _ | f
    · simp [List.countP_cons, Ne.symm h1, Ne.symm h2]
    · by_cases hf : f = "" <;>
        simp [hf, List.countP_cons, Ne.symm h1, Ne.symm h2]
  · simp

theorem limitParam_pos (l : Int) (h : 0 < l) :
    limitParam l = [("limit", toString l)] := by
  simp [limitParam, h]

theorem buildParamsList_eq (l : Int) (so : Option String) (f : String)
    (sf : Option String) :
    buildParamsList (some l) so f sf =
      limitParam l ++ sortParams (so.getD DEFAULT_SORT_ORDER) sf ++
        filterParam f := rfl

/-- C5: for every query-builder call with `limit = 0` the built parameter
list carries no `limit` parameter; for every `limit > 0` it carries exactly
one `limit=<value>` parameter with that value. -/
theorem buildParams_limit_param (so : Option String) (f : String)
    (sf : Option String) :
    countKey "limit" (buildParamsList (some 0) so f sf) = 0 ∧
    (∀ l : Int, 0 < l →
      countKey "limit" (buildParamsList (some l) so f sf) = 1 ∧
      ("limit", toString l) ∈ buildParamsList (some l) so f sf) := by
  constructor
  · rw [buildParamsList_eq, countKey_append, countKey_append,
      countKey_sortParams_ne _ _ _ (by decide) (by decide),
      countKey_filterParam_ne _ _ (by decide)]
    simp [limitParam, countKey]
  · intro l hl
    constructor
    · rw [buildParamsList_eq, countKey_append, countKey_append,
        countKey_sortParams_ne _ _ _ (by decide) (by decide),
        countKey_filterParam_ne _ _ (by decide), limitParam_pos l hl]
      simp [countKey, List.countP_cons]
    · rw [buildParamsList_eq, limitParam_pos l hl]
      exact List.mem_append.mpr (Or.inl (List.mem_append.mpr
        (Or.inl (List.mem_singleton.mpr rfl))))

/-- C5 witness: concrete instances of both halves. -/
theorem buildParams_limit_param_witness :
    countKey "limit" (buildParamsList (some 0) (some "DESC") "" none) = 0 ∧
    countKey "limit" (buildParamsList (some 7) (some "DESC") "" none) = 1 ∧
    ("limit", toString (7 : Int)) ∈
      buildParamsList (some 7) (some "DESC") "" none := by
  obtain ⟨h0, h⟩ := buildParams_limit_param (some "DESC") "" none
  obtain ⟨h1, h2⟩ := h 7 (by decide)
  exact ⟨h0, h1, h2⟩

/-- C6: for every query-builder call whose sort-order argument does not
upper-case to `ASC` or `DESC`, the built parameter list carries neither a
`sortorder` nor a `sortfield` parameter. -/
theorem buildParams_invalid_sort_disables (l : Option Int) (f : String)
    (sf : Option String) (so : String)
    (h : ¬ (pyUpper so = "ASC" ∨ pyUpper so = "DESC")) :
    countKey "sortorder" (buildParamsList l (some so) f sf) = 0 ∧
    countKey "sortfield" (buildParamsList l (some so) f sf) = 0 := by
  have hb : buildParamsList l (some so) f sf =
      limitParam (l.getD DEFAULT_LIMIT) ++ sortParams so sf ++
        filterParam f := rfl
  have hs : sortParams so sf = [] := by
    simp [sortParams, h]
  rw [hb, hs]
  constructor <;>
    · rw [countKey_append, countKey_append,
        countKey_limitParam_ne _ _ (by decide),
        countKey_filterParam_ne _ _ (by decide)]
      simp [countKey]

/-- C6 witness: `sort_order = "random"` suppresses both sort parameters. -/
theorem buildParams_invalid_sort_disables_witness :
    countKey "sortorder"
      (buildParamsList (some 10) (some "random") "x" (some "t.datec")) = 0 ∧
    countKey "sortfield"
      (buildParamsList (some 10) (some "random") "x" (some "t.datec")) = 0 :=
  buildParams_invalid_sort_disables (some 10) "x" (some "t.datec") "random"
    (by decide)

/-- C1 counterexample: `_build_params` invoked with sorting active and no
explicit sort field — exactly what a non-agenda caller would produce,
since the builder receives no resource context — still emits
`sortfield=t.datep`: the claim's "for every other resource type with no
explicit sort field, no sortfield parameter is emitted at all" fails on
this input. -/
theorem buildParams_fallback_not_agenda_only :
    buildParamsList (some 10) (some "ASC") "" none =
      [("limit", "10"), ("sortorder", "ASC"), ("sortfield", "t.datep")] ∧
    countKey "sortfield" (buildParamsList (some 10) (some "ASC") "" none)
      = 1 := by
  constructor <;> decide

/-- C1 (amended): whenever sorting is active and the sort-field argument is
not truthy (`None` or empty), `_build_params` emits the fallback
`sortfield=t.datep` — for every caller, not only agenda-event calls; the
builder carries no resource context that could restrict the fallback. -/
theorem buildParams_fallback_sortfield_always (l : Option Int)
    (so : Option String) (f : String) (sf : Option String)
    (hso : pyUpper (so.getD DEFAULT_SORT_ORDER) = "ASC" ∨
      pyUpper (so.getD DEFAULT_SORT_ORDER) = "DESC")
    (hsf : sf = none ∨ sf = some "") :
    ("sortfield", "t.datep") ∈ buildParamsList l so f sf := by
  have hb : buildParamsList l so f sf =
      limitParam (l.getD DEFAULT_LIMIT) ++
        sortParams (so.getD DEFAULT_SORT_ORDER) sf ++ filterParam f := rfl
  rw [hb]
  refine List.mem_append.mpr (Or.inl (List.mem_append.mpr (Or.inr ?_)))
  unfold sortParams
  rw [if_pos hso]
  rcases hsf with rfl | rfl
  · exact List.mem_cons_of_mem _ (List.mem_singleton.mpr rfl)
  · simp

/-- C1 witness: the amended fallback behaviour at a concrete input. -/
theorem buildParams_fallback_sortfield_always_witness :
    ("sortfield", "t.datep") ∈ buildParamsList (some 10) (some "ASC") ""
      none :=
  buildParams_fallback_sortfield_always (some 10) (some "ASC") "" none
    (by decide) (Or.inl rfl)

/-! ### Agenda-event defaulting lemmas -/

theorem pyLookup_none_of_contains_false (k : String) (d : PyDict)
    (h : pyContains k d = false) : pyLookup k d = none := by
  cases ho : pyLookup k d with
  | none => rfl
  | some v =>
    rw [pyContains_eq_isSome, ho] at h
    simp at h

theorem pyLookup_isSome_of_contains_true (k : String) (d : PyDict)
    (h : pyContains k d = true) : (pyLookup k d).isSome := by
  rw [← pyContains_eq_isSome, h]

theorem pyLookup_injectOwner (d : PyDict) :
    pyLookup "userownerid" (injectOwner d) =
      some (pyGet "userownerid" d (.int 5)) := by
  unfold injectOwner
  split
  · next hA =>
    obtain ⟨v, hv⟩ :=
      Option.isSome_iff_exists.mp (pyLookup_isSome_of_contains_true _ _ hA)
    rw [pyGet, hv]
    rfl
  · next hA =>
    have hA' : pyContains "userownerid" d = false := by simpa using hA
    have hn : pyLookup "userownerid" d = none :=
      pyLookup_none_of_contains_false _ _ hA'
    rw [pySet_eq_append _ _ _ hA', pyLookup_append_self _ _ _ hn, pyGet, hn]
    rfl

theorem pyLookup_injectOwner_ne (k : String) (d : PyDict)
    (h : k ≠ "userownerid") :
    pyLookup k (injectOwner d) = pyLookup k d := by
  unfold injectOwner
  split
  · rfl
  · next hA =>
    have hA' : pyContains "userownerid" d = false := by simpa using hA
    rw [pySet_eq_append _ _ _ hA', pyLookup_append_ne _ _ _ _ h]

theorem pyLookup_injectOwner_of_contains (k : String) (d : PyDict)
    (h : pyContains k d = true) :
    pyLookup k (injectOwner d) = pyLookup k d := by
  by_cases hk : k = "userownerid"
  · subst hk
    unfold injectOwner
    rw [if_pos h]
  · exact pyLookup_injectOwner_ne k d hk

theorem pyLookup_injectAssigned_absent (e : PyDict)
    (h : pyContains "userassigned" e = false) :
    pyLookup "userassigned" (injectAssigned e) =
      some (assignmentMap (pyStr ((pyLookup "userownerid" e).getD .null))) := by
  unfold injectAssigned
  rw [if_neg (by simp [h]), pySet_eq_append _ _ _ h,
    pyLookup_append_self _ _ _ (pyLookup_none_of_contains_false _ _ h)]

theorem pyLookup_injectAssigned_ne (k : String) (e : PyDict)
    (h : k ≠ "userassigned") :
    pyLookup k (injectAssigned e) = pyLookup k e := by
  unfold injectAssigned
  split
  · rfl
  · next hA =>
    have hA' : pyContains "userassigned" e = false := by simpa using hA
    rw [pySet_eq_append _ _ _ hA', pyLookup_append_ne _ _ _ _ h]

theorem pyLookup_injectAssigned_of_isSome (k : String) (e : PyDict)
    (h : (pyLookup k e).isSome) :
    pyLookup k (injectAssigned e) = pyLookup k e := by
  by_cases hk : k = "userassigned"
  · subst hk
    unfold injectAssigned
    rw [if_pos (by rw [pyContains_eq_isSome, h])]
  · exact pyLookup_injectAssigned_ne k e hk

theorem applyAgendaDefaults_eq (d : PyDict) :
    applyAgendaDefaults d =
      agendaSetdefaults (injectAssigned (injectOwner d)) := rfl

theorem pyLookup_agendaSetdefaults_of_isSome (k : String) (e : PyDict)
    (h : (pyLookup k e).isSome) :
    pyLookup k (agendaSetdefaults e) = pyLookup k e := by
  unfold agendaSetdefaults
  have h1 := pyLookup_setdefault_of_isSome "percentage" k (.int (-1)) e h
  have s1 : (pyLookup k (pySetdefault "percentage" (.int (-1)) e)).isSome := by
    rw [h1]
    exact h
  have h2 := pyLookup_setdefault_of_isSome "priority" k (.int 0) _ s1
  have s2 : (pyLookup k (pySetdefault "priority" (.int 0)
      (pySetdefault "percentage" (.int (-1)) e))).isSome := by
    rw [h2]
    exact s1
  have h3 := pyLookup_setdefault_of_isSome "fulldayevent" k (.int 0) _ s2
  have s3 : (pyLookup k (pySetdefault "fulldayevent" (.int 0)
      (pySetdefault "priority" (.int 0)
        (pySetdefault "percentage" (.int (-1)) e)))).isSome := by
    rw [h3]
    exact s2
  have h4 := pyLookup_setdefault_of_isSome "transparency" k (.int 0) _ s3
  rw [h4, h3, h2, h1]

/-- All defaulting facts of `applyAgendaDefaults` in one lemma: each absent
key receives exactly its documented default, and every key present in the
caller's input — falsy or not — keeps its value. -/
theorem applyAgendaDefaults_spec (d : PyDict) :
    (pyContains "userownerid" d = false →
      pyLookup "userownerid" (applyAgendaDefaults d) = some (.int 5)) ∧
    (pyContains "userassigned" d = false →
      pyLookup "userassigned" (applyAgendaDefaults d) =
        some (assignmentMap (pyStr (pyGet "userownerid" d (.int 5))))) ∧
    (pyContains "percentage" d = false →
      pyLookup "percentage" (applyAgendaDefaults d) = some (.int (-1))) ∧
    (pyContains "priority" d = false →
      pyLookup "priority" (applyAgendaDefaults d) = some (.int 0)) ∧
    (pyContains "fulldayevent" d = false →
      pyLookup "fulldayevent" (applyAgendaDefaults d) = some (.int 0)) ∧
    (pyContains "transparency" d = false →
      pyLookup "transparency" (applyAgendaDefaults d) = some (.int 0)) ∧
    (∀ k, pyContains k d = true →
      pyLookup k (applyAgendaDefaults d) = pyLookup k d) := by
  have hOwn1 : pyLookup "userownerid" (injectOwner d) =
      some (pyGet "userownerid" d (.int 5)) := pyLookup_injectOwner d
  have hOwnE : pyLookup "userownerid" (injectAssigned (injectOwner d)) =
      some (pyGet "userownerid" d (.int 5)) := by
    rw [pyLookup_injectAssigned_ne _ _ (by decide), hOwn1]
  refine ⟨?_, ?_, ?_, ?_, ?_, ?_, ?_⟩
  · intro h
    rw [applyAgendaDefaults_eq,
      pyLookup_agendaSetdefaults_of_isSome _ _ (by rw [hOwnE]; rfl), hOwnE,
      pyGet, pyLookup_none_of_contains_false _ _ h]
    rfl
  · intro h
    have hA1 : pyContains "userassigned" (injectOwner d) = false := by
      rw [pyContains_eq_isSome, pyLookup_injectOwner_ne _ _ (by decide),
        ← pyContains_eq_isSome]
      exact h
    have hAs := pyLookup_injectAssigned_absent _ hA1
    rw [applyAgendaDefaults_eq,
      pyLookup_agendaSetdefaults_of_isSome _ _ (by rw [hAs]; rfl), hAs,
      hOwn1]
    rfl
  · intro h
    have he : pyLookup "percentage" (injectAssigned (injectOwner d)) =
        none := by
      rw [pyLookup_injectAssigned_ne _ _ (by decide),
        pyLookup_injectOwner_ne _ _ (by decide)]
      exact pyLookup_none_of_contains_false _ _ h
    rw [applyAgendaDefaults_eq]
    unfold agendaSetdefaults
    rw [pyLookup_setdefault_other _ _ _ _ (by decide),
      pyLookup_setdefault_other _ _ _ _ (by decide),
      pyLookup_setdefault_other _ _ _ _ (by decide),
      pyLookup_setdefault_self _ _ _ he]
  · intro h
    have he : pyLookup "priority" (injectAssigned (injectOwner d)) =
        none := by
      rw [pyLookup_injectAssigned_ne _ _ (by decide),
        pyLookup_injectOwner_ne _ _ (by decide)]
      exact pyLookup_none_of_contains_false _ _ h
    have he2 : pyLookup "priority" (pySetdefault "percentage" (.int (-1))
        (injectAssigned (injectOwner d))) = none := by
      rw [pyLookup_setdefault_other _ _ _ _ (by decide)]
      exact he
    rw [applyAgendaDefaults_eq]
    unfold agendaSetdefaults
    rw [pyLookup_setdefault_other _ _ _ _ (by decide),
      pyLookup_setdefault_other _ _ _ _ (by decide),
      pyLookup_setdefault_self _ _ _ he2]
  · intro h
    have he : pyLookup "fulldayevent" (injectAssigned (injectOwner d)) =
        none := by
      rw [pyLookup_injectAssigned_ne _ _ (by decide),
        pyLookup_injectOwner_ne _ _ (by decide)]
      exact pyLookup_none_of_contains_false _ _ h
    have he2 : pyLookup "fulldayevent"
        (pySetdefault "priority" (.int 0)
          (pySetdefault "percentage" (.int (-1))
            (injectAssigned (injectOwner d)))) = none := by
      rw [pyLookup_setdefault_other _ _ _ _ (by decide),
        pyLookup_setdefault_other _ _ _ _ (by decide)]
      exact he
    rw [applyAgendaDefaults_eq]
    unfold agendaSetdefaults
    rw [pyLookup_setdefault_other _ _ _ _ (by decide),
      pyLookup_setdefault_self _ _ _ he2]
  · intro h
    have he : pyLookup "transparency" (injectAssigned (injectOwner d)) =
        none := by
      rw [pyLookup_injectAssigned_ne _ _ (by decide),
        pyLookup_injectOwner_ne _ _ (by decide)]
      exact pyLookup_none_of_contains_false _ _ h
    have he2 : pyLookup "transparency"
        (pySetdefault "fulldayevent" (.int 0)
          (pySetdefault "priority" (.int 0)
            (pySetdefault "percentage" (.int (-1))
              (injectAssigned (injectOwner d))))) = none := by
      rw [pyLookup_setdefault_other _ _ _ _ (by decide),
        pyLookup_setdefault_other _ _ _ _ (by decide),
        pyLookup_setdefault_other _ _ _ _ (by decide)]
      exact he
    rw [applyAgendaDefaults_eq]
    unfold agendaSetdefaults
    rw [pyLookup_setdefault_self _ _ _ he2]
  · intro k h
    have hE : pyLookup k (injectAssigned (injectOwner d)) =
        pyLookup k d := by
      rw [pyLookup_injectAssigned_of_isSome _ _
        (by rw [pyLookup_injectOwner_of_contains _ _ h]
            exact pyLookup_isSome_of_contains_true _ _ h),
        pyLookup_injectOwner_of_contains _ _ h]
    rw [applyAgendaDefaults_eq, pyLookup_agendaSetdefaults_of_isSome _ _
      (by rw [hE]; exact pyLookup_isSome_of_contains_true _ _ h), hE]

/-- C4: agenda-event creation defaulting — an absent `userownerid` becomes
`5`; an absent `userassigned` becomes the single-entry map keyed by the
effective owner's string form with fields
`id / mandatory "0" / answer_status "0" / transparency "0"`; absent
`percentage`, `priority`, `fulldayevent`, `transparency` become
`-1, 0, 0, 0`; and every key the caller supplied — falsy value or not —
keeps its value. -/
theorem create_agenda_event_defaults (d : PyDict) :
    (pyContains "userownerid" d = false →
      pyLookup "userownerid" (applyAgendaDefaults d) = some (.int 5)) ∧
    (pyContains "userassigned" d = false →
      pyLookup "userassigned" (applyAgendaDefaults d) =
        some (assignmentMap (pyStr (pyGet "userownerid" d (.int 5))))) ∧
    (pyContains "percentage" d = false →
      pyLookup "percentage" (applyAgendaDefaults d) = some (.int (-1))) ∧
    (pyContains "priority" d = false →
      pyLookup "priority" (applyAgendaDefaults d) = some (.int 0)) ∧
    (pyContains "fulldayevent" d = false →
      pyLookup "fulldayevent" (applyAgendaDefaults d) = some (.int 0)) ∧
    (pyContains "transparency" d = false →
      pyLookup "transparency" (applyAgendaDefaults d) = some (.int 0)) ∧
    (∀ k, pyContains k d = true →
      pyLookup k (applyAgendaDefaults d) = pyLookup k d) :=
  applyAgendaDefaults_spec d

/-- C4 witness: a payload without any of the defaulted keys receives them
all; a payload carrying a falsy `transparency` keeps it. -/
theorem create_agenda_event_defaults_witness :
    pyLookup "userownerid" (applyAgendaDefaults [("label", .str "x")]) =
      some (.int 5) ∧
    pyLookup "userassigned" (applyAgendaDefaults [("label", .str "x")]) =
      some (assignmentMap (pyStr (pyGet "userownerid" [("label", .str "x")]
        (.int 5)))) ∧
    pyLookup "percentage" (applyAgendaDefaults [("label", .str "x")]) =
      some (.int (-1)) ∧
    pyLookup "transparency"
      (applyAgendaDefaults [("transparency", .int 0)]) =
      pyLookup "transparency" [("transparency", .int 0)] := by
  refine ⟨(create_agenda_event_defaults [("label", .str "x")]).1 (by decide),
    (create_agenda_event_defaults [("label", .str "x")]).2.1 (by decide),
    (create_agenda_event_defaults [("label", .str "x")]).2.2.1 (by decide),
    (create_agenda_event_defaults
      [("transparency", .int 0)]).2.2.2.2.2.2 "transparency" (by decide)⟩

/-- C9: `create_agenda_event` mutates the caller-supplied dict in place:
after the call the very address the caller passed holds the defaulted
mapping (with the injected `userownerid`, `userassigned`, `percentage`,
`priority`, `fulldayevent`, `transparency` values), no copy is made, and
no other heap object changes. -/
theorem create_agenda_event_mutates_in_place (ctx : Ctx) (a : Nat)
    (σ : Store) (d : PyDict) (h : σ a = some d) :
    ((createAgendaEventSt ctx a σ).1 a = some (applyAgendaDefaults d)) ∧
    (∀ b, b ≠ a → (createAgendaEventSt ctx a σ).1 b = σ b) ∧
    (pyContains "userownerid" d = false →
      pyLookup "userownerid" (applyAgendaDefaults d) = some (.int 5)) ∧
    (pyContains "userassigned" d = false →
      pyLookup "userassigned" (applyAgendaDefaults d) =
        some (assignmentMap (pyStr (pyGet "userownerid" d (.int 5))))) ∧
    (pyContains "percentage" d = false →
      pyLookup "percentage" (applyAgendaDefaults d) = some (.int (-1))) ∧
    (pyContains "priority" d = false →
      pyLookup "priority" (applyAgendaDefaults d) = some (.int 0)) ∧
    (pyContains "fulldayevent" d = false →
      pyLookup "fulldayevent" (applyAgendaDefaults d) = some (.int 0)) ∧
    (pyContains "transparency" d = false →
      pyLookup "transparency" (applyAgendaDefaults d) = some (.int 0)) := by
  obtain ⟨h1, h2, h3, h4, h5, h6, _⟩ := applyAgendaDefaults_spec d
  refine ⟨?_, ?_, h1, h2, h3, h4, h5, h6⟩
  · simp only [createAgendaEventSt, h, storeSet]
    simp
  · intro b hb
    simp only [createAgendaEventSt, h, storeSet]
    simp [hb]

/-- C9 witness: a concrete heap holding one event dict at address 0. -/
theorem create_agenda_event_mutates_in_place_witness :
    ((createAgendaEventSt ⟨fun _ => ⟨200, .null⟩, "u"⟩ 0
        (fun b => if b = 0 then some [("label", .str "x")] else none)).1 0 =
      some (applyAgendaDefaults [("label", .str "x")])) ∧
    pyLookup "userownerid" (applyAgendaDefaults [("label", .str "x")]) =
      some (.int 5) := by
  obtain ⟨h1, _, h3, _⟩ := create_agenda_event_mutates_in_place
    ⟨fun _ => ⟨200, .null⟩, "u"⟩ 0
    (fun b => if b = 0 then some [("label", .str "x")] else none)
    [("label", .str "x")] (by simp)
  exact ⟨h1, h3 (by decide)⟩

/-! ### Creation-result normalization (C3) -/

/-- C3 counterexample: a remote body of JSON `true` (Python `True`, which
`isinstance(result, int)` accepts) is wrapped with the *raw* boolean as
`id`, while the claim's "any other returned shape is coerced to `{id:
stringified-value, ...}`" demands the stringified `"True"` — the two
normalizations disagree at this input. -/
theorem normalizeCreation_bool_counterexample :
    normalizeCreation (.bool true) =
      .obj [("id", .bool true), ("status", .str "created")] ∧
    claimNormalizeCreation (.bool true) =
      .obj [("id", .str "True"), ("status", .str "created")] ∧
    normalizeCreation (.bool true) ≠ claimNormalizeCreation (.bool true) := by
  refine ⟨rfl, rfl, ?_⟩
  intro h
  simp [normalizeCreation, claimNormalizeCreation, pyStr, pyRepr] at h

theorem makeRequest_ok (ctx : Ctx) (method endpoint : String)
    (data : Option JVal) (v : JVal)
    (hm : pyUpper method = "GET" ∨ pyUpper method = "POST" ∨
      pyUpper method = "PUT" ∨ pyUpper method = "DELETE")
    (hstatus : ∀ r, (ctx.remote r).status < 400)
    (hbody : ∀ r, (ctx.remote r).body = v) :
    (makeRequest ctx method endpoint data).2 = .ok v := by
  simp only [makeRequest]
  rw [if_pos hm]
  rw [if_neg (Nat.not_le.mpr (hstatus _)), hbody]

/-- C3 (amended): every create operation returns the normalized remote
body; a bare integer wraps into an id/status object (numeric id, never the
raw integer alone); an object passes through unmodified; every other shape
is coerced to the stringified form exactly as the claim states it — except
a bare boolean, which Python's integer test accepts and therefore wraps
with the raw boolean as id rather than its string form. -/
theorem createResult_normalization (ctx : Ctx) (d : PyDict) (v : JVal)
    (hstatus : ∀ r, (ctx.remote r).status < 400)
    (hbody : ∀ r, (ctx.remote r).body = v) :
    ((DolibarrAPI.create_contact ctx d).2 = .ok (normalizeCreation v) ∧
     (DolibarrAPI.create_company ctx d).2 = .ok (normalizeCreation v) ∧
     (DolibarrAPI.create_proposal ctx d).2 = .ok (normalizeCreation v) ∧
     (DolibarrAPI.create_agenda_event ctx d).2 = .ok (normalizeCreation v) ∧
     (DolibarrAPI.create_ticket ctx d).2 = .ok (normalizeCreation v)) ∧
    (∀ n : Int, normalizeCreation (.int n) =
      .obj [("id", .int n), ("status", .str "created")]) ∧
    (∀ fs, normalizeCreation (.obj fs) = .obj fs) ∧
    (∀ b, normalizeCreation (.bool b) =
      .obj [("id", .bool b), ("status", .str "created")]) ∧
    (∀ w, (∀ n : Int, w ≠ .int n) → (∀ b, w ≠ .bool b) →
      normalizeCreation w = claimNormalizeCreation w) := by
  refine ⟨⟨?_, ?_, ?_, ?_, ?_⟩, fun n => rfl, fun fs => rfl, fun b => rfl,
    ?_⟩
  · simp [DolibarrAPI.create_contact, mapOk, Except.map,
      makeRequest_ok ctx "POST" "contacts" _ v (by decide) hstatus hbody]
  · simp [DolibarrAPI.create_company, mapOk, Except.map,
      makeRequest_ok ctx "POST" "thirdparties" _ v (by decide) hstatus
        hbody]
  · simp [DolibarrAPI.create_proposal, mapOk, Except.map,
      makeRequest_ok ctx "POST" "proposals" _ v (by decide) hstatus hbody]
  · simp [DolibarrAPI.create_agenda_event, mapOk, Except.map,
      makeRequest_ok ctx "POST" "agendaevents" _ v (by decide) hstatus
        hbody]
  · simp [DolibarrAPI.create_ticket, mapOk, Except.map,
      makeRequest_ok ctx "POST" "tickets" _ v (by decide) hstatus hbody]
  · intro w h1 h2
    cases w with
    | int n => exact absurd rfl (h1 n)
    | bool b => exact absurd rfl (h2 b)
    | str s => rfl
    | arr xs => rfl
    | obj fs => rfl
    | null => rfl

/-- C3 witness: a remote answering `42` to a ticket creation. -/
theorem createResult_normalization_witness :
    (DolibarrAPI.create_ticket ⟨fun _ => ⟨200, .int 42⟩, "u"⟩ []).2 =
      .ok (normalizeCreation (.int 42)) ∧
    normalizeCreation (.int 42) =
      .obj [("id", .int 42), ("status", .str "created")] := by
  obtain ⟨⟨_, _, _, _, h5⟩, hint, _⟩ := createResult_normalization
    ⟨fun _ => ⟨200, .int 42⟩, "u"⟩ [] (.int 42)
    (fun _ => by simp) (fun _ => rfl)
  exact ⟨h5, hint 42⟩

/-! ### December rollover (C7) -/

/-- C7: for an agenda-event list call with `filter_type = "this_month"` at
a current instant in December of year Y, the emitted filter string's
month-end bound is `Y-12-31 23:59:59` — the rollover through January 1 of
year Y+1 lands on the last second of December of the *same* year. -/
theorem agenda_this_month_december_rollover (now : PyDateTime)
    (h : now.month = 12) :
    monthEndOf now = ⟨now.year, 12, 31, 23, 59, 59, now.microsecond⟩ ∧
    agendaSearchFilters (some (.str "this_month")) now =
      "t.datep >= '" ++ strftimeYmdHMS (monthStartOf now) ++
        "' AND t.datep <= '" ++
        strftimeYmdHMS ⟨now.year, 12, 31, 23, 59, 59, now.microsecond⟩ ++
        "'" ∧
    strftimeYmdHMS ⟨now.year, 12, 31, 23, 59, 59, now.microsecond⟩ =
      toString now.year ++ "-12-31 23:59:59" ∧
    strftimeYmdHMS (monthStartOf now) =
      toString now.year ++ "-12-01 00:00:00" := by
  have hEnd : monthEndOf now =
      ⟨now.year, 12, 31, 23, 59, 59, now.microsecond⟩ := by
    unfold monthEndOf
    rw [if_pos h]
    simp [minusOneSecond]
  refine ⟨hEnd, ?_, ?_, ?_⟩
  · simp only [agendaSearchFilters, pyTruthy]
    norm_num
    rw [hEnd]
    rfl
  · simp only [strftimeYmdHMS, pad2]
    norm_num
    simp only [String.append_assoc]
    rfl
  · simp only [strftimeYmdHMS, monthStartOf, pad2, h]
    norm_num
    simp only [String.append_assoc]
    rfl

/-- C7 witness: December 15, 2025. -/
theorem agenda_this_month_december_rollover_witness :
    agendaSearchFilters (some (.str "this_month")) ⟨2025, 12, 15, 10, 30, 0, 0⟩ =
      "t.datep >= '" ++ strftimeYmdHMS (monthStartOf ⟨2025, 12, 15, 10, 30, 0, 0⟩) ++
        "' AND t.datep <= '" ++
        strftimeYmdHMS ⟨2025, 12, 31, 23, 59, 59, 0⟩ ++ "'" ∧
    strftimeYmdHMS ⟨2025, 12, 31, 23, 59, 59, 0⟩ =
      toString 2025 ++ "-12-31 23:59:59" :=
  ⟨(agenda_this_month_december_rollover ⟨2025, 12, 15, 10, 30, 0, 0⟩ rfl).2.1,
   (agenda_this_month_december_rollover ⟨2025, 12, 15, 10, 30, 0, 0⟩ rfl).2.2.1⟩

/-! ### Dispatcher error handling (C8, C2) and update-body framing (C10) -/

/-- C8: an unknown tool name yields the failed text result
`Erreur: Outil inconnu: <name>` — the dispatcher's `else` raises
`ValueError` and the `except` handler converts it, the process does not
crash (the handler is total); and in general every exception escaping the
`try` body becomes a single `Erreur: ...` text result. -/
theorem handle_call_tool_unknown_tool (ctx : Ctx) (now : PyDateTime)
    (name : String) (args : PyDict) :
    (name ∉ toolNames →
      handle_call_tool ctx now name args =
        [⟨"Erreur: Outil inconnu: " ++ name⟩]) ∧
    (∀ e, (dispatch ctx now name args).2 = .error e →
      handle_call_tool ctx now name args = [⟨"Erreur: " ++ pyErrStr e⟩]) := by
  constructor
  · intro h
    simp only [toolNames, List.mem_cons, List.not_mem_nil, or_false,
      not_or] at h
    obtain ⟨h1, h2, h3, h4, h5, h6, h7, h8, h9, h10, h11, h12, h13, h14,
      h15, h16, h17, h18, h19, h20⟩ := h
    simp [handle_call_tool, dispatch, h1, h2, h3, h4, h5, h6, h7, h8, h9,
      h10, h11, h12, h13, h14, h15, h16, h17, h18, h19, h20, pyErrStr]
    rfl
  · intro e he
    simp only [handle_call_tool, he]

/-- C8 witness: a concrete unknown tool name. -/
theorem handle_call_tool_unknown_tool_witness :
    handle_call_tool ⟨fun _ => ⟨200, .null⟩, "u"⟩ ⟨2025, 1, 1, 0, 0, 0, 0⟩
      "frobnicate" [] = [⟨"Erreur: Outil inconnu: frobnicate"⟩] ∧
    handle_call_tool ⟨fun _ => ⟨200, .null⟩, "u"⟩ ⟨2025, 1, 1, 0, 0, 0, 0⟩
      "frobnicate" [] =
      [⟨"Erreur: " ++ pyErrStr (.valueError ("Outil inconnu: frobnicate"))⟩] :=
  ⟨(handle_call_tool_unknown_tool ⟨fun _ => ⟨200, .null⟩, "u"⟩
      ⟨2025, 1, 1, 0, 0, 0, 0⟩ "frobnicate" []).1 (by decide),
   (handle_call_tool_unknown_tool ⟨fun _ => ⟨200, .null⟩, "u"⟩
      ⟨2025, 1, 1, 0, 0, 0, 0⟩ "frobnicate" []).2
     (.valueError ("Outil inconnu: frobnicate")) rfl⟩

theorem makeRequest_err (ctx : Ctx) (method endpoint : String)
    (data : Option JVal) (st : Nat)
    (hm : pyUpper method = "GET" ∨ pyUpper method = "POST" ∨
      pyUpper method = "PUT" ∨ pyUpper method = "DELETE")
    (hst : ∀ r, (ctx.remote r).status = st) (h4 : 400 ≤ st) :
    (makeRequest ctx method endpoint data).2 =
      .error (.httpStatus st
        (rstripSlash ctx.baseUrl ++ "/" ++ lstripSlash endpoint)) := by
  simp only [makeRequest]
  rw [if_pos hm]
  simp [hst, h4]

/-- C2 (amended): a remote 400/404 answer to any get/update/delete tool
call yields a failed tool result — a single text beginning `Erreur: ` that
carries the `httpx` status-line message (status code, reason phrase and
URL), never a silent empty success; the remote body's extracted
`error.message` is written to the log only (see `makeRequest`) and is not
part of the returned text. -/
theorem get_update_delete_error_result (ctx : Ctx) (now : PyDateTime)
    (name : String) (args : PyDict) (st : Nat)
    (hname : name ∈ (["get_agenda_event", "update_agenda_event",
      "delete_agenda_event", "get_ticket", "get_ticket_by_ref",
      "get_ticket_by_track_id", "update_ticket", "delete_ticket"] :
        List String))
    (hev : name = "update_agenda_event" → (pyLookup "event_id" args).isSome)
    (htk : name = "update_ticket" → (pyLookup "ticket_id" args).isSome)
    (hst : ∀ r, (ctx.remote r).status = st)
    (hcode : st = 400 ∨ st = 404) :
    ∃ url, handle_call_tool ctx now name args =
      [⟨"Erreur: " ++ httpErrStr st url⟩] := by
  have h4 : 400 ≤ st := by rcases hcode with rfl | rfl <;> decide
  simp only [List.mem_cons, List.not_mem_nil, or_false] at hname
  rcases hname with rfl | rfl | rfl | rfl | rfl | rfl | rfl | rfl
  · refine ⟨rstripSlash ctx.baseUrl ++ "/" ++
      lstripSlash ("agendaevents/" ++ pyStr (pyGet "event_id" args .null)),
      ?_⟩
    simp [handle_call_tool, dispatch, outJson,
      DolibarrAPI.get_agenda_event,
      makeRequest_err ctx "GET" _ none st (by decide) hst h4, Except.map,
      pyErrStr]
  · obtain ⟨v, hv⟩ := Option.isSome_iff_exists.mp (hev rfl)
    refine ⟨rstripSlash ctx.baseUrl ++ "/" ++
      lstripSlash ("agendaevents/" ++ pyStr v), ?_⟩
    simp [handle_call_tool, dispatch, outMsg, hv,
      DolibarrAPI.update_agenda_event,
      makeRequest_err ctx "PUT" _ _ st (by decide) hst h4, Except.map,
      pyErrStr]
  · refine ⟨rstripSlash ctx.baseUrl ++ "/" ++
      lstripSlash ("agendaevents/" ++ pyStr (pyGet "event_id" args .null)),
      ?_⟩
    simp [handle_call_tool, dispatch, outMsg,
      DolibarrAPI.delete_agenda_event,
      makeRequest_err ctx "DELETE" _ none st (by decide) hst h4,
      Except.map, pyErrStr]
  · refine ⟨rstripSlash ctx.baseUrl ++ "/" ++
      lstripSlash ("tickets/" ++ pyStr (pyGet "ticket_id" args .null)), ?_⟩
    simp [handle_call_tool, dispatch, outJson, DolibarrAPI.get_ticket,
      makeRequest_err ctx "GET" _ none st (by decide) hst h4, Except.map,
      pyErrStr]
  · refine ⟨rstripSlash ctx.baseUrl ++ "/" ++
      lstripSlash ("tickets/ref/" ++ pyStr (pyGet "ref" args .null)), ?_⟩
    simp [handle_call_tool, dispatch, outJson,
      DolibarrAPI.get_ticket_by_ref,
      makeRequest_err ctx "GET" _ none st (by decide) hst h4, Except.map,
      pyErrStr]
  · refine ⟨rstripSlash ctx.baseUrl ++ "/" ++
      lstripSlash ("tickets/track_id/" ++
        pyStr (pyGet "track_id" args .null)), ?_⟩
    simp [handle_call_tool, dispatch, outJson,
      DolibarrAPI.get_ticket_by_track_id,
      makeRequest_err ctx "GET" _ none st (by decide) hst h4, Except.map,
      pyErrStr]
  · obtain ⟨v, hv⟩ := Option.isSome_iff_exists.mp (htk rfl)
    refine ⟨rstripSlash ctx.baseUrl ++ "/" ++
      lstripSlash ("tickets/" ++ pyStr v), ?_⟩
    simp [handle_call_tool, dispatch, outMsg, hv,
      DolibarrAPI.update_ticket,
      makeRequest_err ctx "PUT" _ _ st (by decide) hst h4, Except.map,
      pyErrStr]
  · refine ⟨rstripSlash ctx.baseUrl ++ "/" ++
      lstripSlash ("tickets/" ++ pyStr (pyGet "ticket_id" args .null)), ?_⟩
    simp [handle_call_tool, dispatch, outMsg, DolibarrAPI.delete_ticket,
      makeRequest_err ctx "DELETE" _ none st (by decide) hst h4,
      Except.map, pyErrStr]

/-- C2 counterexample: the remote answers a `get_ticket` call with 404 and
the structured body `\x7b"error": \x7b"message": "Ticket not found"\x7d\x7d`;
the returned failed text carries httpx's status-line message and does
*not* contain the extracted remote message "Ticket not found" — the
extraction at lines 109-113 of the source feeds the log only. -/
theorem remote_error_message_not_in_result :
    handle_call_tool
      ⟨fun _ => ⟨404,
        .obj [("error", .obj [("message", .str "Ticket not found")])]⟩,
       "https://crm.example.com/api/index.php"⟩
      ⟨2025, 12, 15, 10, 30, 0, 0⟩ "get_ticket"
      [("ticket_id", .str "1")] =
      [⟨"Erreur: Client error '404 Not Found' for url 'https://crm.example.com/api/index.php/tickets/1'"⟩] ∧
    strContains
      "Erreur: Client error '404 Not Found' for url 'https://crm.example.com/api/index.php/tickets/1'"
      "Ticket not found" = false := by
  constructor
  · rfl
  · decide

/-- C2 witness: the amended theorem applied at the counterexample's
input. -/
theorem get_update_delete_error_result_witness :
    ∃ url, handle_call_tool
      ⟨fun _ => ⟨404,
        .obj [("error", .obj [("message", .str "Ticket not found")])]⟩,
       "https://crm.example.com/api/index.php"⟩
      ⟨2025, 12, 15, 10, 30, 0, 0⟩ "get_ticket"
      [("ticket_id", .str "1")] = [⟨"Erreur: " ++ httpErrStr 404 url⟩] :=
  get_update_delete_error_result
    ⟨fun _ => ⟨404,
      .obj [("error", .obj [("message", .str "Ticket not found")])]⟩,
     "https://crm.example.com/api/index.php"⟩
    ⟨2025, 12, 15, 10, 30, 0, 0⟩ "get_ticket" [("ticket_id", .str "1")]
    404 (by decide) (fun h => by simp at h) (fun h => by simp at h)
    (fun _ => rfl) (Or.inr rfl)

theorem makeRequest_put_requests (ctx : Ctx) (endpoint : String)
    (data : Option JVal) :
    (makeRequest ctx "PUT" endpoint data).1 =
      [⟨"PUT", rstripSlash ctx.baseUrl ++ "/" ++ lstripSlash endpoint,
        data⟩] := rfl

/-- C10: `update_agenda_event` and `update_ticket` pop the identifier key
before forwarding: the single outbound PUT request carries the arguments
dict with the key removed — the identifier key is absent from the body,
every other caller-supplied field is forwarded unchanged. -/
theorem update_tools_remove_id_key (ctx : Ctx) (now : PyDateTime)
    (args : PyDict) :
    (∀ v, pyLookup "event_id" args = some v →
      dispatchRequests ctx now "update_agenda_event" args =
        [⟨"PUT", rstripSlash ctx.baseUrl ++ "/" ++
          lstripSlash ("agendaevents/" ++ pyStr v),
          some (.obj (pyErase "event_id" args))⟩]) ∧
    (∀ v, pyLookup "ticket_id" args = some v →
      dispatchRequests ctx now "update_ticket" args =
        [⟨"PUT", rstripSlash ctx.baseUrl ++ "/" ++
          lstripSlash ("tickets/" ++ pyStr v),
          some (.obj (pyErase "ticket_id" args))⟩]) ∧
    pyLookup "event_id" (pyErase "event_id" args) = none ∧
    pyLookup "ticket_id" (pyErase "ticket_id" args) = none ∧
    (∀ k, k ≠ "event_id" →
      pyLookup k (pyErase "event_id" args) = pyLookup k args) ∧
    (∀ k, k ≠ "ticket_id" →
      pyLookup k (pyErase "ticket_id" args) = pyLookup k args) := by
  refine ⟨?_, ?_, pyLookup_erase_self _ _, pyLookup_erase_self _ _,
    fun k hk => pyLookup_erase_ne _ _ _ hk,
    fun k hk => pyLookup_erase_ne _ _ _ hk⟩
  · intro v hv
    simp [dispatchRequests, dispatch, hv, outMsg,
      DolibarrAPI.update_agenda_event, makeRequest_put_requests]
  · intro v hv
    simp [dispatchRequests, dispatch, hv, outMsg,
      DolibarrAPI.update_ticket, makeRequest_put_requests]

/-- C10 witness: a concrete update call; the forwarded body has no
identifier key and keeps the other field. -/
theorem update_tools_remove_id_key_witness :
    dispatchRequests ⟨fun _ => ⟨200, .null⟩, "u"⟩ ⟨2025, 1, 1, 0, 0, 0, 0⟩
      "update_agenda_event" [("event_id", .str "9"), ("label", .str "x")] =
      [⟨"PUT", rstripSlash "u" ++ "/" ++
        lstripSlash ("agendaevents/" ++ pyStr (.str "9")),
        some (.obj (pyErase "event_id"
          [("event_id", .str "9"), ("label", .str "x")]))⟩] ∧
    pyLookup "event_id" (pyErase "event_id"
      [("event_id", .str "9"), ("label", .str "x")]) = none ∧
    pyLookup "label" (pyErase "event_id"
      [("event_id", .str "9"), ("label", .str "x")]) =
      pyLookup "label" [("event_id", .str "9"), ("label", .str "x")] := by
  obtain ⟨h1, _, h3, _, h5, _⟩ := update_tools_remove_id_key
    ⟨fun _ => ⟨200, .null⟩, "u"⟩ ⟨2025, 1, 1, 0, 0, 0, 0⟩
    [("event_id", .str "9"), ("label", .str "x")]
  exact ⟨h1 (.str "9") rfl, h3, h5 "label" (by decide)⟩
